import Mathlib

set_option maxRecDepth 8000

/-!
Shallow embedding of the Visual Mind AI service worker (`sw.js`).

The service worker is a set of event handlers over the browser's Cache
Storage API.  We embed each handler as a pure Lean function:

* cache storage is an association list from cache names to caches, a cache
  an association list from request URLs to stored responses (the Cache API
  keys runtime entries by request; the only matching the code relies on is
  URL equality);
* the network is an explicit parameter: `Option Response` for a single
  fetch (`none` = the fetch promise rejected), `String → Option Response`
  for the bulk precache fetch;
* the side effects a handler performs (network fetch, cache match/put/
  delete, skipWaiting, clients.claim, postMessage, showNotification) are
  recorded in an explicit trace list, in the order the code issues them;
* a JavaScript exception escaping the handler's promise chain is modelled
  by an explicit `rejected` result (for `respondWith`) rather than a Lean
  error.

Bodies of responses are inert blobs as far as the worker is concerned, so
they are represented by tags: `BodyTag.offlineHtml` stands for the literal
offline HTML document built at lines 106-167 of `sw.js`, and
`BodyTag.serviceUnavailable` for the literal `'Service Unavailable'` body;
`BodyTag.network id` tags a body that arrived from the network or cache.
-/

/-- Constant `CACHE_NAME = 'visual-mind-ai-v1.0.0'` (sw.js line 4). -/
def CACHE_NAME : String := "visual-mind-ai-v1.0.0"

/-- Constant `RUNTIME_CACHE = 'visual-mind-runtime-v1.0.0'` (sw.js line 5). -/
def RUNTIME_CACHE : String := "visual-mind-runtime-v1.0.0"

/-- Constant `PRECACHE_URLS` (sw.js lines 8-16). -/
def PRECACHE_URLS : List String :=
  ["/",
   "/visual-mind-ai-pwa.html",
   "/index.html",
   "https://cdn.tailwindcss.com",
   "https://unpkg.com/react@18/umd/react.production.min.js",
   "https://unpkg.com/react-dom@18/umd/react-dom.production.min.js",
   "https://unpkg.com/@babel/standalone/babel.min.js"]

/-- Constant `NO_CACHE_URLS = ['https://api.anthropic.com']` (sw.js lines 19-21). -/
def NO_CACHE_URLS : List String :=
  ["https://api.anthropic.com"]

/-- The `Response.type` values of the Fetch API (`'opaque'` is the one the
worker tests for; the others are carried for completeness). -/
inductive RespType where
  | basic
  | cors
  | defaultType
  | errorType
  | opaqueType
  | opaqueRedirect
deriving DecidableEq, Repr

/-- Tag identifying a response body.  The worker never inspects bodies, so a
tag is enough: `network id` is a body obtained over the network (the `id`
distinguishes distinct network payloads), `offlineHtml` is the HTML document
literal synthesized at sw.js lines 106-167, `serviceUnavailable` the
`'Service Unavailable'` string literal of line 171. -/
inductive BodyTag where
  | network (id : Nat)
  | offlineHtml
  | serviceUnavailable
deriving DecidableEq, Repr

/-- A Fetch API `Response`, restricted to the fields the worker reads
(`status`, `type`), plus the body tag and the `Content-Type` header the
worker sets on the synthesized offline page.  `response.clone()` is modelled
by reusing the same value. -/
structure Response where
  status : Nat
  rtype : RespType
  body : BodyTag
  contentTypeHeader : Option String := none
deriving DecidableEq, Repr

/-- Whether a response is one of the two literals the fetch handler
synthesizes itself (offline page / 503). -/
def Response.isSynthesized (r : Response) : Bool :=
  match r.body with
  | .offlineHtml => true
  | .serviceUnavailable => true
  | .network _ => false

/-- Response built by `new Response(offlineHtml, ...)` with a `text/html`
Content-Type header (sw.js lines 106-167): constructed responses default to
status 200 and type `'default'`. -/
def offlineHtmlResponse : Response :=
  { status := 200, rtype := .defaultType, body := .offlineHtml,
    contentTypeHeader := some "text/html" }

/-- Response built by `new Response('Service Unavailable', ...)` with
status 503 (sw.js line 171). -/
def unavailableResponse : Response :=
  { status := 503, rtype := .defaultType, body := .serviceUnavailable }

/-- A fetch-event `Request`, restricted to the fields the worker reads:
`request.url`, `request.method`, and `request.headers.get('accept')`
(`none` models a `null` return, i.e. an absent Accept header). -/
structure Request where
  url : String
  method : String
  accept : Option String := none
deriving DecidableEq, Repr

/-- A JavaScript exception value.  The only one the worker can raise is a
`TypeError` from calling a method on `null`. -/
inductive JsError where
  | typeError (msg : String)
deriving DecidableEq, Repr

/-- A minimal JavaScript value universe for the push-message payload.  An
object is represented by an identity tag (`vobj 0` is the empty-object
literal the handler uses as a default); the worker only moves these values
around and tests their truthiness. -/
inductive JsValue where
  | undef
  | vnull
  | vbool (b : Bool)
  | vnum (n : Int)
  | vstr (s : String)
  | vobj (id : Nat)
deriving DecidableEq, Repr

/-- JavaScript truthiness of a `JsValue` (NaN is not representable in this
`Int` model; the worker never produces it). -/
def JsValue.truthy : JsValue → Bool
  | .undef => false
  | .vnull => false
  | .vbool b => b
  | .vnum n => n != 0
  | .vstr s => s != ""
  | .vobj _ => true

/-- JavaScript `a || b` on values: `a` when truthy, otherwise `b`. -/
def jsOr (a b : JsValue) : JsValue :=
  if a.truthy then a else b

/-- One observable side effect issued by a handler, in program order. -/
inductive SWEvent where
  | netFetch (url : String)
  | cacheMatch (url : String)
  | cachePut (cacheName : String) (url : String)
  | cacheDelete (cacheName : String)
  | skipWaiting
  | clientsClaim
  | clientPostMessage (msgType : String)
  | showNotificationEv (title : JsValue)
deriving DecidableEq, Repr

/-- A single named cache: request URL ↦ stored response. -/
abbrev Cache := List (String × Response)

/-- The Cache Storage: cache name ↦ cache, in creation order. -/
abbrev CacheStorage := List (String × Cache)

/-- Effect of `cache.put(request, response)` within one cache: overwrite the
entry for this URL if present, otherwise append a new entry. -/
def cacheInsert : Cache → String → Response → Cache
  | [], url, r => [(url, r)]
  | e :: es, url, r =>
    if e.1 = url then (url, r) :: es else e :: cacheInsert es url r

/-- Effect of `caches.open(name)`: the cache is created (empty) if it does
not exist. -/
def cachesOpenEnsure (st : CacheStorage) (cacheName : String) : CacheStorage :=
  if st.any (fun p => p.1 == cacheName) then st else st ++ [(cacheName, [])]

/-- Effect of `caches.open(name)` followed by `cache.put(url, r)`. -/
def cachePut (st : CacheStorage) (cacheName url : String) (r : Response) :
    CacheStorage :=
  (cachesOpenEnsure st cacheName).map
    (fun p => if p.1 = cacheName then (p.1, cacheInsert p.2 url r) else p)

/-- First value stored under a key in an association list. -/
def assocLookup {α β : Type} [DecidableEq α] : List (α × β) → α → Option β
  | [], _ => none
  | e :: es, k => if e.1 = k then some e.2 else assocLookup es k

/-- Look a URL up in one named cache of the storage. -/
def cacheLookup (st : CacheStorage) (cacheName url : String) :
    Option Response :=
  match assocLookup st cacheName with
  | some c => assocLookup c url
  | none => none

/-- Model of `caches.match(request)`: search every cache, in order,
returning the first stored response whose URL matches. -/
def cachesMatch (url : String) (st : CacheStorage) : Option Response :=
  st.findSome? (fun p => assocLookup p.2 url)

/-- Whether `pat` begins `hay`, character by character. -/
def charsStartWith : List Char → List Char → Bool
  | _, [] => true
  | [], _ :: _ => false
  | a :: as, b :: bs => a == b && charsStartWith as bs

/-- Whether `pat` occurs contiguously anywhere in `hay`. -/
def charsContain : List Char → List Char → Bool
  | [], pat => pat.isEmpty
  | a :: rest, pat => charsStartWith (a :: rest) pat || charsContain rest pat

/-- JavaScript `String.prototype.includes`: substring occurrence. -/
def jsIncludes (s pat : String) : Bool :=
  charsContain s.toList pat.toList

/-- JavaScript `String.prototype.startsWith`. -/
def jsStartsWith (s pat : String) : Bool :=
  charsStartWith s.toList pat.toList

/-- Test `NO_CACHE_URLS.some(noCache => url.href.startsWith(noCache))`
(sw.js line 70; URL normalization by `new URL(...)` is not modelled, the
URL string is used as given). -/
def isNoCacheUrl (url : String) : Bool :=
  NO_CACHE_URLS.any (fun noCache => jsStartsWith url noCache)

/-- Result of the fetch handler: `passthrough` when the listener returns
without calling `respondWith` (the browser handles the request); `respond r`
when the promise passed to `respondWith` fulfills with `r`; `rejected e`
when that promise rejects with the exception `e` (the page sees a network
error). -/
inductive FetchResult where
  | passthrough
  | respond (r : Response)
  | rejected (e : JsError)
deriving DecidableEq, Repr

/-- Everything observable about one run of the fetch handler. -/
structure FetchOutcome where
  result : FetchResult
  caches : CacheStorage
  trace : List SWEvent
deriving DecidableEq, Repr

/-- The fetch listener (sw.js lines 65-175).  `net` is the outcome of
`fetch(request)` (`none` = rejection); `writeOk` says whether the
fire-and-forget `cache.put` of the cloned response succeeds (its failure is
caught and only logged, line 90). -/
def handleFetch (req : Request) (net : Option Response) (writeOk : Bool)
    (st : CacheStorage) : FetchOutcome :=
  if isNoCacheUrl req.url then
    { result := .passthrough, caches := st, trace := [] }
  else if req.method ≠ "GET" then
    { result := .passthrough, caches := st, trace := [] }
  else
    match net with
    | some response =>
      -- `if (response && response.status === 200 && response.type !== 'opaque')`:
      -- a fulfilled fetch always yields a Response object, so the first
      -- conjunct is always true here.
      if response.status = 200 ∧ response.rtype ≠ .opaqueType then
        if writeOk then
          { result := .respond response,
            caches := cachePut st RUNTIME_CACHE req.url response,
            trace := [.netFetch req.url, .cachePut RUNTIME_CACHE req.url] }
        else
          { result := .respond response, caches := st,
            trace := [.netFetch req.url] }
      else
        { result := .respond response, caches := st,
          trace := [.netFetch req.url] }
    | none =>
      match cachesMatch req.url st with
      | some cachedResponse =>
        { result := .respond cachedResponse, caches := st,
          trace := [.netFetch req.url, .cacheMatch req.url] }
      | none =>
        match req.accept with
        | none =>
          -- `request.headers.get('accept')` returned null, and
          -- `null.includes(...)` throws (sw.js line 105).
          { result := .rejected (.typeError
              "Cannot read properties of null reading includes"),
            caches := st,
            trace := [.netFetch req.url, .cacheMatch req.url] }
        | some accept =>
          if jsIncludes accept "text/html" then
            { result := .respond offlineHtmlResponse, caches := st,
              trace := [.netFetch req.url, .cacheMatch req.url] }
          else
            { result := .respond unavailableResponse, caches := st,
              trace := [.netFetch req.url, .cacheMatch req.url] }

/-- Fetch a list of URLs for `cache.addAll`: the batch rejects (`none`) if
any single fetch fails, and otherwise yields the URL/response pairs it will
store. -/
def precacheFetchList (fetchResults : String → Option Response) :
    List String → Option (List (String × Response))
  | [] => some []
  | url :: rest =>
    match fetchResults url, precacheFetchList fetchResults rest with
    | some r, some es => some ((url, r) :: es)
    | _, _ => none

/-- Model of `cache.addAll` applied to `PRECACHE_URLS` (sw.js line 31). -/
def precacheFetchAll (fetchResults : String → Option Response) :
    Option (List (String × Response)) :=
  precacheFetchList fetchResults PRECACHE_URLS

/-- The install listener (sw.js lines 24-40): open `CACHE_NAME`, try the
bulk `addAll`, swallow its rejection (`.catch(... Promise.resolve())`,
lines 32-36), then `self.skipWaiting()` (line 38). -/
def handleInstall (fetchResults : String → Option Response)
    (st : CacheStorage) : CacheStorage × List SWEvent :=
  let st0 := cachesOpenEnsure st CACHE_NAME
  match precacheFetchAll fetchResults with
  | some entries =>
    (entries.foldl (fun s e => cachePut s CACHE_NAME e.1 e.2) st0,
     entries.map (fun e => SWEvent.cachePut CACHE_NAME e.1) ++
       [SWEvent.skipWaiting])
  | none =>
    -- the rejection is caught; nothing was stored; installation continues
    (st0, [SWEvent.skipWaiting])

/-- The activate listener (sw.js lines 43-62): delete every cache whose
name is neither `CACHE_NAME` nor `RUNTIME_CACHE`, then
`self.clients.claim()`. -/
def handleActivate (st : CacheStorage) : CacheStorage × List SWEvent :=
  let stale := (st.map (fun p => p.1)).filter
    (fun cacheName => cacheName != CACHE_NAME && cacheName != RUNTIME_CACHE)
  (st.filter (fun p => p.1 == CACHE_NAME || p.1 == RUNTIME_CACHE),
   stale.map SWEvent.cacheDelete ++ [SWEvent.clientsClaim])

/-- Value of `event.data` of a message event: `null`, or an object whose
`type` property is a string or absent. -/
inductive MessageData where
  | nullData
  | obj (msgType : Option String)
deriving DecidableEq, Repr

/-- The message listener (sw.js lines 178-205): two independent `if`s on
`event.data && event.data.type`; `'SKIP_WAITING'` calls
`self.skipWaiting()`, `'CLEAR_CACHE'` deletes every existing cache and then
broadcasts a `'CACHE_CLEARED'` message to all clients. -/
def handleMessage (data : MessageData) (st : CacheStorage) :
    CacheStorage × List SWEvent :=
  let trSkip :=
    if data = .obj (some "SKIP_WAITING") then [SWEvent.skipWaiting] else []
  if data = .obj (some "CLEAR_CACHE") then
    ([],
     trSkip ++ (st.map (fun p => SWEvent.cacheDelete p.1)) ++
       [SWEvent.clientPostMessage "CACHE_CLEARED"])
  else
    (st, trSkip)

/-- The parsed JSON payload of a push event, restricted to the five
properties the handler reads; `none` models an absent property (which reads
as `undefined`). -/
structure PushPayload where
  title : Option JsValue := none
  body : Option JsValue := none
  tag : Option JsValue := none
  requireInteraction : Option JsValue := none
  data : Option JsValue := none
deriving DecidableEq, Repr

/-- Reading property `f` of the payload and applying `|| d`
(e.g. `data.title || 'Visual Mind AI'`): an absent property is
`undefined`, which is falsy. -/
def fieldOr (f : Option JsValue) (d : JsValue) : JsValue :=
  jsOr (f.getD .undef) d

/-- The argument pair of `self.registration.showNotification(title, options)`
(sw.js lines 225-236), restricted to the fields the handler computes from
the payload; `icon`, `badge` and `vibrate` are constants. -/
structure NotificationCall where
  title : JsValue
  body : JsValue
  icon : String := "/icon-192.png"
  badge : String := "/badge-72.png"
  vibrate : List Nat := [200, 100, 200]
  tag : JsValue
  requireInteraction : JsValue
  data : JsValue
deriving DecidableEq, Repr

/-- The push listener (sw.js lines 222-238): `event.data ? event.data.json()
: {}` (a payload that parses; an absent payload gives the empty object, i.e.
all properties undefined), then each field is `data.f || default`, then
exactly one `showNotification` call. -/
def handlePush (payload : Option PushPayload) :
    NotificationCall × List SWEvent :=
  let data : PushPayload := payload.getD {}
  let call : NotificationCall :=
    { title := fieldOr data.title (.vstr "Visual Mind AI"),
      body := fieldOr data.body (.vstr "Nueva notificación"),
      tag := fieldOr data.tag (.vstr "default"),
      requireInteraction := fieldOr data.requireInteraction (.vbool false),
      data := fieldOr data.data (.vobj 0) }
  (call, [SWEvent.showNotificationEv call.title])

/-- Follows the words of the claim about the push handler: each field is
taken from the payload whenever the property is present, and the default is
substituted only when it is absent.  (To be compared against what the code
does.) -/
def claimField (f : Option JsValue) (d : JsValue) : JsValue :=
  f.getD d

/-- The notification the claim about the push handler predicts. -/
def claimNotifOf (payload : Option PushPayload) : NotificationCall :=
  let data : PushPayload := payload.getD {}
  { title := claimField data.title (.vstr "Visual Mind AI"),
    body := claimField data.body (.vstr "Nueva notificación"),
    tag := claimField data.tag (.vstr "default"),
    requireInteraction := claimField data.requireInteraction (.vbool false),
    data := claimField data.data (.vobj 0) }

/-- Follows the words of the amended claim: each field is taken from the
payload when the property is present with a truthy value, and the default is
substituted when it is absent or falsy. -/
def amendedField (f : Option JsValue) (d : JsValue) : JsValue :=
  match f with
  | some v => if v.truthy then v else d
  | none => d

/-- The notification the amended claim predicts. -/
def amendedNotifOf (payload : Option PushPayload) : NotificationCall :=
  let data : PushPayload := payload.getD {}
  { title := amendedField data.title (.vstr "Visual Mind AI"),
    body := amendedField data.body (.vstr "Nueva notificación"),
    tag := amendedField data.tag (.vstr "default"),
    requireInteraction := amendedField data.requireInteraction (.vbool false),
    data := amendedField data.data (.vobj 0) }

/-! Concrete example inputs used by witnesses and counterexamples. -/

/-- A plain GET request for an HTML page. -/
def reqHtml : Request :=
  { url := "https://example.com/", method := "GET",
    accept := some "text/html,application/xhtml+xml" }

/-- A GET request whose Accept header is absent
(`request.headers.get('accept')` returns `null`). -/
def reqNoAccept : Request :=
  { url := "https://example.com/data.json", method := "GET", accept := none }

/-- A GET request for a non-HTML resource. -/
def reqJson : Request :=
  { url := "https://example.com/api", method := "GET",
    accept := some "application/json" }

/-- A POST request. -/
def reqPost : Request :=
  { url := "https://example.com/upload", method := "POST",
    accept := some "application/json" }

/-- A GET request aimed at the denylisted origin. -/
def reqAnthropic : Request :=
  { url := "https://api.anthropic.com/v1/messages", method := "GET",
    accept := some "application/json" }

/-- An ordinary successful network response. -/
def respOk : Response :=
  { status := 200, rtype := .basic, body := .network 0 }

/-- An opaque (no-cors cross-origin) network response. -/
def respOpaque : Response :=
  { status := 0, rtype := .opaqueType, body := .network 1 }

/-- A cache storage holding the two current caches and one stale cache. -/
def stThreeCaches : CacheStorage :=
  [(CACHE_NAME, []), ("visual-mind-ai-v0.9.0", []), (RUNTIME_CACHE, [])]

/-- A push payload whose `title` property is present but falsy (the empty
string). -/
def pxFalsyTitle : PushPayload := { title := some (.vstr "") }
/-! Theorems settling the claims. -/

/-- C5: every fetch event whose request URL starts with the denylisted
origin `https://api.anthropic.com` is not intercepted: the listener returns
without calling `respondWith`, produces no response, issues no network
fetch, and neither reads nor writes any cache. -/
theorem noCacheUrl_bypassed (req : Request) (net : Option Response)
    (writeOk : Bool) (st : CacheStorage)
    (hd : jsStartsWith req.url "https://api.anthropic.com" = true) :
    handleFetch req net writeOk st =
      { result := .passthrough, caches := st, trace := [] } := by
  have hno : isNoCacheUrl req.url = true := by
    simp [isNoCacheUrl, NO_CACHE_URLS, hd]
  unfold handleFetch
  simp [hno]

theorem noCacheUrl_bypassed_witness :
    jsStartsWith reqAnthropic.url "https://api.anthropic.com" = true ∧
    handleFetch reqAnthropic (some respOk) true stThreeCaches =
      { result := .passthrough, caches := stThreeCaches, trace := [] } :=
  ⟨by decide, noCacheUrl_bypassed reqAnthropic (some respOk) true stThreeCaches (by decide)⟩

/-- C10: every fetch event whose request method is not GET is not
intercepted: the listener returns before `respondWith`, produces no
response, and leaves the cache storage unchanged with no cache read or
write. -/
theorem nonGet_passthrough (req : Request) (net : Option Response)
    (writeOk : Bool) (st : CacheStorage) (hm : req.method ≠ "GET") :
    handleFetch req net writeOk st =
      { result := .passthrough, caches := st, trace := [] } := by
  unfold handleFetch
  by_cases hd : isNoCacheUrl req.url <;> simp [hd, hm]

theorem nonGet_passthrough_witness :
    reqPost.method ≠ "GET" ∧
    handleFetch reqPost (some respOk) true stThreeCaches =
      { result := .passthrough, caches := stThreeCaches, trace := [] } :=
  ⟨by decide, nonGet_passthrough reqPost (some respOk) true stThreeCaches (by decide)⟩

/-- C2 (failing input): a GET request with no Accept header whose network
fetch rejects and whose cache lookup misses does not get the 503 response
the claim promises; `request.headers.get('accept')` is `null`, so
`null.includes('text/html')` throws a TypeError and the `respondWith`
promise rejects. -/
theorem missingAccept_throws :
    handleFetch reqNoAccept none true [] =
      { result := .rejected (.typeError
          "Cannot read properties of null reading includes"),
        caches := [],
        trace := [.netFetch reqNoAccept.url, .cacheMatch reqNoAccept.url] } := by
  decide

/-- C8: when the network fetch fulfills with a 200 non-opaque response, the
handler responds with exactly that network response, whether or not the
fire-and-forget cache write of its clone succeeds. -/
theorem networkResponse_returned (req : Request) (r : Response)
    (writeOk : Bool) (st : CacheStorage)
    (hm : req.method = "GET") (hd : isNoCacheUrl req.url = false)
    (hs : r.status = 200) (ht : r.rtype ≠ .opaqueType) :
    (handleFetch req (some r) writeOk st).result = .respond r := by
  unfold handleFetch
  by_cases w : writeOk <;> simp [hd, hm, hs, ht, w]

theorem networkResponse_returned_witness :
    (handleFetch reqHtml (some respOk) true []).result = .respond respOk ∧
    (handleFetch reqHtml (some respOk) false []).result = .respond respOk :=
  ⟨networkResponse_returned reqHtml respOk true [] rfl (by decide) rfl (by decide),
   networkResponse_returned reqHtml respOk false [] rfl (by decide) rfl (by decide)⟩

/-- C3: for an intercepted GET request whose network fetch fulfills, the
clone of the response is written into the runtime cache
`visual-mind-runtime-v1.0.0` exactly when the response has status 200 and
non-opaque type (and the fire-and-forget write succeeds); with any other
status or opaque type, no cache is touched and no write is issued. -/
theorem runtimeCache_write (req : Request) (r : Response) (writeOk : Bool)
    (st : CacheStorage)
    (hm : req.method = "GET") (hd : isNoCacheUrl req.url = false) :
    ((r.status = 200 ∧ r.rtype ≠ .opaqueType ∧ writeOk = true) →
      (handleFetch req (some r) writeOk st).caches =
        cachePut st "visual-mind-runtime-v1.0.0" req.url r ∧
      SWEvent.cachePut "visual-mind-runtime-v1.0.0" req.url ∈
        (handleFetch req (some r) writeOk st).trace) ∧
    (¬ (r.status = 200 ∧ r.rtype ≠ .opaqueType) →
      (handleFetch req (some r) writeOk st).caches = st ∧
      ∀ n u, SWEvent.cachePut n u ∉ (handleFetch req (some r) writeOk st).trace) := by
  have hrc : RUNTIME_CACHE = "visual-mind-runtime-v1.0.0" := rfl
  constructor
  · rintro ⟨hs, ht, hw⟩
    subst hw
    unfold handleFetch
    simp [hd, hm, hs, ht, hrc]
  · intro hno
    unfold handleFetch
    by_cases hs : r.status = 200
    · have ht : r.rtype = .opaqueType := by
        by_contra ht
        exact hno ⟨hs, ht⟩
      simp [hd, hm, hs, ht]
    · simp [hd, hm, hs]

theorem runtimeCache_write_witness :
    (respOk.status = 200 ∧ respOk.rtype ≠ .opaqueType ∧ true = true) ∧
    (handleFetch reqHtml (some respOk) true []).caches =
      cachePut [] "visual-mind-runtime-v1.0.0" reqHtml.url respOk ∧
    SWEvent.cachePut "visual-mind-runtime-v1.0.0" reqHtml.url ∈
      (handleFetch reqHtml (some respOk) true []).trace :=
  ⟨by decide,
   (runtimeCache_write reqHtml respOk true [] rfl (by decide)).1 (by decide)⟩

/-- C1: for every intercepted GET request outside the denylist (and for
responses that are not the handler's own synthesized literals), the handler
attempts the network fetch first; the cache is only consulted when that
fetch rejects; a cache hit is returned as-is; and a synthesized response is
produced only when both the network and the cache miss. -/
theorem fetch_networkFirst (req : Request) (net : Option Response)
    (writeOk : Bool) (st : CacheStorage)
    (hm : req.method = "GET") (hd : isNoCacheUrl req.url = false)
    (hnet : ∀ r, net = some r → r.isSynthesized = false)
    (hcache : ∀ c, cachesMatch req.url st = some c → c.isSynthesized = false) :
    (handleFetch req net writeOk st).trace.head? =
      some (.netFetch req.url) ∧
    (∀ r, net = some r →
      (handleFetch req net writeOk st).result = .respond r ∧
      SWEvent.cacheMatch req.url ∉ (handleFetch req net writeOk st).trace) ∧
    (∀ c, net = none → cachesMatch req.url st = some c →
      (handleFetch req net writeOk st).result = .respond c) ∧
    (∀ r, (handleFetch req net writeOk st).result = .respond r →
      r.isSynthesized = true →
      net = none ∧ cachesMatch req.url st = none) := by
  unfold handleFetch
  cases net with
  | some response =>
    have hsyn := hnet response rfl
    by_cases hok : response.status = 200 ∧ response.rtype ≠ .opaqueType
    · by_cases w : writeOk <;> simp [hd, hm, hok, w, hsyn]
    · simp [hd, hm, hok, hsyn]
  | none =>
    cases hc : cachesMatch req.url st with
    | some cached =>
      have hsyn := hcache cached hc
      simp [hd, hm, hc, hsyn]
    | none =>
      cases ha : req.accept with
      | none => simp [hd, hm, hc, ha]
      | some accept =>
        by_cases hh : jsIncludes accept "text/html" = true <;>
          simp [hd, hm, hc, ha, hh]

theorem fetch_networkFirst_witness :
    reqHtml.method = "GET" ∧ isNoCacheUrl reqHtml.url = false ∧
    (handleFetch reqHtml (some respOk) true []).trace.head? =
      some (.netFetch reqHtml.url) ∧
    (handleFetch reqHtml (some respOk) true []).result = .respond respOk ∧
    SWEvent.cacheMatch reqHtml.url ∉
      (handleFetch reqHtml (some respOk) true []).trace :=
  have h := fetch_networkFirst reqHtml (some respOk) true [] rfl (by decide)
    (fun r hr => by cases hr; rfl)
    (fun c hc => by simp [cachesMatch] at hc)
  ⟨rfl, by decide, h.1, (h.2.1 respOk rfl).1, (h.2.1 respOk rfl).2⟩

/-- C4: activation deletes exactly the caches whose name is neither
`visual-mind-ai-v1.0.0` nor `visual-mind-runtime-v1.0.0`; the two caches
with the current names are never deleted and survive activation. -/
theorem activate_cleanup (st : CacheStorage) :
    (∀ n, SWEvent.cacheDelete n ∈ (handleActivate st).2 ↔
      (n ∈ st.map (fun p => p.1) ∧
        n ≠ "visual-mind-ai-v1.0.0" ∧ n ≠ "visual-mind-runtime-v1.0.0")) ∧
    SWEvent.cacheDelete "visual-mind-ai-v1.0.0" ∉ (handleActivate st).2 ∧
    SWEvent.cacheDelete "visual-mind-runtime-v1.0.0" ∉ (handleActivate st).2 ∧
    (∀ p ∈ st, (p.1 = "visual-mind-ai-v1.0.0" ∨
        p.1 = "visual-mind-runtime-v1.0.0") → p ∈ (handleActivate st).1) ∧
    (∀ p ∈ (handleActivate st).1, p ∈ st) := by
  have h1 : CACHE_NAME = "visual-mind-ai-v1.0.0" := rfl
  have h2 : RUNTIME_CACHE = "visual-mind-runtime-v1.0.0" := rfl
  have hmem : ∀ n, SWEvent.cacheDelete n ∈ (handleActivate st).2 ↔
      (n ∈ st.map (fun p => p.1) ∧
        n ≠ "visual-mind-ai-v1.0.0" ∧ n ≠ "visual-mind-runtime-v1.0.0") := by
    intro n
    unfold handleActivate
    simp [List.mem_filter, List.mem_map, and_assoc, CACHE_NAME, RUNTIME_CACHE]
    constructor
    · rintro ⟨a, ⟨x, hx⟩, ha1, ha2, rfl⟩
      exact ⟨⟨x, hx⟩, ha1, ha2⟩
    · rintro ⟨⟨x, hx⟩, hn1, hn2⟩
      exact ⟨n, ⟨x, hx⟩, hn1, hn2, rfl⟩
  refine ⟨hmem, ?_, ?_, ?_, ?_⟩
  · intro h
    exact ((hmem _).mp h).2.1 rfl
  · intro h
    exact ((hmem _).mp h).2.2 rfl
  · intro p hp hcur
    unfold handleActivate
    simp [h1, h2, List.mem_filter]
    rcases hcur with h | h <;> simp [hp, h]
  · intro p hp
    unfold handleActivate at hp
    simp [List.mem_filter] at hp
    exact hp.1

theorem activate_cleanup_witness :
    SWEvent.cacheDelete "visual-mind-ai-v0.9.0" ∈
      (handleActivate stThreeCaches).2 ∧
    SWEvent.cacheDelete "visual-mind-ai-v1.0.0" ∉
      (handleActivate stThreeCaches).2 ∧
    SWEvent.cacheDelete "visual-mind-runtime-v1.0.0" ∉
      (handleActivate stThreeCaches).2 :=
  have h := activate_cleanup stThreeCaches
  ⟨(h.1 "visual-mind-ai-v0.9.0").mpr (by decide), h.2.1, h.2.2.1⟩

/-- C6: the message handler recognizes exactly two commands: a
`SKIP_WAITING` message calls `skipWaiting` and leaves the caches alone, a
`CLEAR_CACHE` message deletes every existing cache including the two
current named ones, and any other message (null data, no `type`, or an
unrecognized `type`) leaves the cache state unchanged and does nothing. -/
theorem message_commands (d : MessageData) (st : CacheStorage) :
    (d = .obj (some "SKIP_WAITING") →
      handleMessage d st = (st, [SWEvent.skipWaiting])) ∧
    (d = .obj (some "CLEAR_CACHE") →
      (handleMessage d st).1 = [] ∧
      ∀ p ∈ st, SWEvent.cacheDelete p.1 ∈ (handleMessage d st).2) ∧
    (d ≠ .obj (some "SKIP_WAITING") → d ≠ .obj (some "CLEAR_CACHE") →
      handleMessage d st = (st, [])) := by
  refine ⟨?_, ?_, ?_⟩
  · rintro rfl
    simp [handleMessage]
  · rintro rfl
    refine ⟨by simp [handleMessage], ?_⟩
    intro p hp
    simp [handleMessage, List.mem_map]
    exact ⟨p.2, hp⟩
  · intro h1 h2
    simp [handleMessage, h1, h2]

theorem message_commands_witness :
    (handleMessage (.obj (some "CLEAR_CACHE")) stThreeCaches).1 = [] ∧
    SWEvent.cacheDelete "visual-mind-ai-v1.0.0" ∈
      (handleMessage (.obj (some "CLEAR_CACHE")) stThreeCaches).2 ∧
    handleMessage (.obj (some "SKIP_WAITING")) stThreeCaches =
      (stThreeCaches, [SWEvent.skipWaiting]) ∧
    handleMessage (.obj (some "PING")) stThreeCaches = (stThreeCaches, []) :=
  by
  have h := message_commands (MessageData.obj (some "CLEAR_CACHE")) stThreeCaches
  refine ⟨(h.2.1 rfl).1, ?_, ?_, ?_⟩
  · exact (h.2.1 rfl).2 ("visual-mind-ai-v1.0.0", []) (by decide)
  · exact (message_commands (MessageData.obj (some "SKIP_WAITING"))
      stThreeCaches).1 rfl
  · exact (message_commands (MessageData.obj (some "PING")) stThreeCaches).2.2
      (by decide) (by decide)

/-! Helper lemmas about the cache storage. -/

theorem cacheInsert_lookup (c : Cache) (u' u : String) (r' : Response) :
    assocLookup (cacheInsert c u' r') u =
      if u = u' then some r' else assocLookup c u := by
  induction c with
  | nil =>
    by_cases h : u = u'
    · simp [cacheInsert, assocLookup, h]
    · simp [cacheInsert, assocLookup, h, Ne.symm h]
  | cons e es ih =>
    by_cases h1 : e.1 = u'
    · subst h1
      by_cases h2 : u = e.1
      · subst h2
        simp [cacheInsert, assocLookup]
      · simp [cacheInsert, assocLookup, h2, Ne.symm h2]
    · by_cases h2 : e.1 = u
      · have hne : ¬ u = u' := fun hc => h1 (h2.trans hc)
        simp [cacheInsert, assocLookup, h1, h2, hne]
      · simp [cacheInsert, assocLookup, h1, h2, ih]

theorem lookup_map_update (l : CacheStorage) (n u' : String) (r' : Response) :
    assocLookup (l.map
        (fun p => if p.1 = n then (p.1, cacheInsert p.2 u' r') else p)) n =
      (assocLookup l n).map (fun c => cacheInsert c u' r') := by
  induction l with
  | nil => rfl
  | cons p l ih =>
    by_cases h : p.1 = n <;> simp [assocLookup, h, ih]

theorem lookup_of_any (l : CacheStorage) (n : String)
    (h : l.any (fun p => p.1 == n) = true) :
    ∃ c, assocLookup l n = some c := by
  induction l with
  | nil => simp at h
  | cons p l ih =>
    by_cases hp : p.1 = n
    · exact ⟨p.2, by simp [assocLookup, hp]⟩
    · simp at h
      obtain ⟨c, hc⟩ := ih (by
        rcases h with h | h
        · exact absurd h hp
        · simpa using h)
      exact ⟨c, by simp [assocLookup, hp, hc]⟩

theorem lookup_none_of_not_any (l : CacheStorage) (n : String)
    (h : l.any (fun p => p.1 == n) = false) :
    assocLookup l n = none := by
  induction l with
  | nil => rfl
  | cons p l ih =>
    simp at h
    simp [assocLookup, h.1, ih (by simpa using h.2)]

theorem lookup_append_storage (l₁ l₂ : CacheStorage) (n : String) :
    assocLookup (l₁ ++ l₂) n =
      match assocLookup l₁ n with
      | some c => some c
      | none => assocLookup l₂ n := by
  induction l₁ with
  | nil => rfl
  | cons p l ih =>
    by_cases h : p.1 = n <;> simp [assocLookup, h, ih]

theorem cachePut_cacheLookup (st : CacheStorage) (n u' u : String)
    (r' : Response) :
    cacheLookup (cachePut st n u' r') n u =
      if u = u' then some r' else cacheLookup st n u := by
  unfold cachePut cacheLookup
  rw [lookup_map_update]
  unfold cachesOpenEnsure
  cases hany : st.any (fun p => p.1 == n) with
  | true =>
    obtain ⟨c, hc⟩ := lookup_of_any st n hany
    simp [hany, hc, cacheInsert_lookup]
  | false =>
    have hnone := lookup_none_of_not_any st n hany
    simp [hany, lookup_append_storage, hnone, assocLookup]
    by_cases h : u = u' <;> simp [cacheInsert, assocLookup, h]
    exact fun hc => absurd hc.symm h

theorem foldl_cachePut_isSome (entries : List (String × Response))
    (st0 : CacheStorage) (n u : String)
    (h : u ∈ entries.map (fun e => e.1) ∨
      (cacheLookup st0 n u).isSome = true) :
    (cacheLookup
      (entries.foldl (fun s e => cachePut s n e.1 e.2) st0) n u).isSome =
      true := by
  induction entries generalizing st0 with
  | nil =>
    rcases h with h | h
    · simp at h
    · simpa using h
  | cons e rest ih =>
    simp only [List.foldl_cons]
    apply ih
    by_cases hu : u ∈ rest.map (fun e => e.1)
    · exact Or.inl hu
    · right
      rcases h with h | h
      · simp at h
        rcases h with h | h
        · simp [cachePut_cacheLookup, h]
        · exact absurd (by simpa using h) (by simpa using hu)
      · rw [cachePut_cacheLookup]
        by_cases he : u = e.1 <;> simp [he, h]

theorem precacheFetchList_fst (f : String → Option Response)
    (urls : List String) (entries : List (String × Response))
    (h : precacheFetchList f urls = some entries) :
    entries.map (fun e => e.1) = urls := by
  induction urls generalizing entries with
  | nil =>
    simp [precacheFetchList] at h
    simp [← h]
  | cons u us ih =>
    unfold precacheFetchList at h
    cases hf : f u with
    | none => simp [hf] at h
    | some r =>
      cases hrest : precacheFetchList f us with
      | none => simp [hf, hrest] at h
      | some es =>
        simp [hf, hrest] at h
        simp [← h, ih es hrest]

/-- C7: installation opens the cache `visual-mind-ai-v1.0.0` and bulk-
fetches the precache URL list into it; `skipWaiting` is always invoked,
and when the bulk fetch rejects (some URL fails to fetch) the rejection is
swallowed and installation still completes with nothing stored; when it
succeeds, every precache URL ends up stored in that cache. -/
theorem install_bestEffort (f : String → Option Response)
    (st : CacheStorage) :
    SWEvent.skipWaiting ∈ (handleInstall f st).2 ∧
    (precacheFetchAll f = none →
      handleInstall f st =
        (cachesOpenEnsure st "visual-mind-ai-v1.0.0",
         [SWEvent.skipWaiting])) ∧
    (∀ entries, precacheFetchAll f = some entries →
      ∀ u ∈ PRECACHE_URLS,
        (cacheLookup (handleInstall f st).1 "visual-mind-ai-v1.0.0" u).isSome
          = true) := by
  have hc : CACHE_NAME = "visual-mind-ai-v1.0.0" := rfl
  refine ⟨?_, ?_, ?_⟩
  · unfold handleInstall
    cases h : precacheFetchAll f <;> simp [h]
  · intro h
    unfold handleInstall
    simp [h, hc]
  · intro entries h u hu
    unfold handleInstall
    rw [h]
    simp only [← hc]
    apply foldl_cachePut_isSome
    left
    rw [precacheFetchList_fst f PRECACHE_URLS entries h]
    exact hu

theorem install_bestEffort_witness :
    precacheFetchAll (fun _ => none) = none ∧
    handleInstall (fun _ => none) [] =
      (cachesOpenEnsure [] "visual-mind-ai-v1.0.0", [SWEvent.skipWaiting]) ∧
    SWEvent.skipWaiting ∈ (handleInstall (fun _ => none) []).2 :=
  have h := install_bestEffort (fun _ => none) []
  ⟨by decide, h.2.1 (by decide), h.1⟩

/-- Reading a payload property and applying the JavaScript `||` default is
the same as taking the property when it is present and truthy, and the
default otherwise. -/
theorem fieldOr_eq_amendedField (f : Option JsValue) (d : JsValue) :
    fieldOr f d = amendedField f d := by
  cases f <;> rfl

/-- C9 (amended): every push event whose payload parses (an absent payload
reads as the empty object) displays exactly one notification, taking each
of the title, body, tag, requireInteraction and data fields from the
payload when the property is present with a truthy value, and substituting
the defaults when it is absent or falsy. -/
theorem push_showsNotification (payload : Option PushPayload) :
    handlePush payload =
      (amendedNotifOf payload,
       [SWEvent.showNotificationEv (amendedNotifOf payload).title]) := by
  cases payload <;>
    simp [handlePush, amendedNotifOf, fieldOr_eq_amendedField]

/-- C9 (counterexample): a payload whose `title` property is present but
falsy (the empty string) refutes the claim as stated: the claim predicts
the notification title is the payload's title, but the handler substitutes
the default `'Visual Mind AI'`. -/
theorem push_claim_counterexample :
    (handlePush (some pxFalsyTitle)).1 ≠ claimNotifOf (some pxFalsyTitle) ∧
    (handlePush (some pxFalsyTitle)).1.title = .vstr "Visual Mind AI" ∧
    (claimNotifOf (some pxFalsyTitle)).title = .vstr "" := by
  decide
